import Mathlib

/-!
Shallow embedding of `src/garmin_connection_app.py` (Garmin Edge connection
app) and verification of the specification's claims about it.

The program's effectful collaborators (udev enumeration, the mount syscall
wrapper, the D-Bus Bluetooth stack, the filesystem walk) are modelled as
explicit inputs: each operation is embedded as a pure Lean function from the
collaborators' observable behaviour (their results, including raised
exceptions) to the value the Python function returns, together with the
trace of external calls it makes where a claim is about call order.
-/

/-- Exceptions that the program's collaborators (os.makedirs, mount.mount,
dbus calls) may raise.  The Python code never inspects the exception type:
it only catches `Exception`; the constructors record the class of the
underlying OS error so that classification claims can be stated. -/
inductive PyExc where
  | permissionError
  | busy
  | other (msg : String)
deriving DecidableEq

deriving instance DecidableEq for Except

/-- Error taxonomy of the specification (§7): the classified reason codes
that the spec says are surfaced to callers in place of raw errors. -/
inductive ReasonCode where
  | noAdapter
  | alreadyConnecting
  | notConnected
  | notMounted
  | permissionDenied
  | deviceBusy
  | subsystemUnavailable
  | timeout
  | cancelled
  | unknown
deriving DecidableEq

/-- Taxonomy class of an underlying subsystem error, per the spec's
classification (permission vs busy vs unknown).  This is the spec-side map;
the code itself never computes it. -/
def reasonClass : PyExc → ReasonCode
  | .permissionError => .permissionDenied
  | .busy => .deviceBusy
  | .other _ => .unknown

/-! ## USB discovery (GarminDeviceManager.detect_usb_devices) -/

/-- One block-device partition as reported by udev: its device node and the
optional `ID_VENDOR_ID` / `ID_FS_LABEL` properties (absent keys are `none`;
`device.get` supplies the Python-side defaults). -/
structure UdevPartition where
  device_node : String
  id_vendor_id : Option String
  id_fs_label : Option String
deriving DecidableEq

/-- Descriptor dict built by `detect_usb_devices` for a matching partition. -/
structure UsbDescriptor where
  device_path : String
  mount_path : String
  label : String
deriving DecidableEq

/-- GarminDeviceManager.GARMIN_USB_VENDOR_ID = 0x091E. -/
def GARMIN_USB_VENDOR_ID : Nat := 0x091E

/-- GarminDeviceManager.GARMIN_MOUNTPOINT. -/
def GARMIN_MOUNTPOINT : String := "/mnt/garmin"

/-- Python's `hex(n)[2:]` for a nonnegative `n`: lowercase hexadecimal
digits without a `0x` and without zero padding.  `Nat.toDigits 16` produces
exactly Python's lowercase digit string for positive numbers. -/
def pyHexStr (n : Nat) : String := String.mk (Nat.toDigits 16 n)

/-- The string `hex(self.GARMIN_USB_VENDOR_ID)[2:]` that the code compares
`ID_VENDOR_ID` against. -/
def garminVendorIdStr : String := pyHexStr GARMIN_USB_VENDOR_ID

/-- Embeds `GarminDeviceManager.detect_usb_devices`: iterate the enumerated
partitions, keep those whose `ID_VENDOR_ID` (default `""`) equals
`hex(0x091E)[2:]`, and build the descriptor dict with the label defaulting
to "Garmin Device" when `ID_FS_LABEL` is absent. -/
def detect_usb_devices (partitions : List UdevPartition) : List UsbDescriptor :=
  partitions.filterMap (fun d =>
    if d.id_vendor_id.getD "" = garminVendorIdStr then
      some { device_path := d.device_node
             mount_path := GARMIN_MOUNTPOINT
             label := d.id_fs_label.getD "Garmin Device" }
    else none)

/-- Value of a single hexadecimal digit, either case. -/
def hexDigitVal (c : Char) : Option Nat :=
  if '0' ≤ c ∧ c ≤ '9' then some (c.toNat - '0'.toNat)
  else if 'a' ≤ c ∧ c ≤ 'f' then some (c.toNat - 'a'.toNat + 10)
  else if 'A' ≤ c ∧ c ≤ 'F' then some (c.toNat - 'A'.toNat + 10)
  else none

/-- Parses a nonempty hexadecimal numeral (any digit case, leading zeros
allowed), the number a reported vendor-id string denotes. -/
def parseHexNat (s : String) : Option Nat :=
  if s.isEmpty then none
  else s.data.foldl (fun acc c =>
    match acc, hexDigitVal c with
    | some n, some d => some (n * 16 + d)
    | _, _ => none) (some 0)

/-- Spec-side predicate: the partition reports Garmin's registered vendor id
091E, i.e. its `ID_VENDOR_ID` property is a hexadecimal rendering of the
number 0x091E (udev's standard rendering is the zero-padded "091e"). -/
def reportsGarminVendorId (p : UdevPartition) : Bool :=
  parseHexNat (p.id_vendor_id.getD "") == some GARMIN_USB_VENDOR_ID

/-- Failing input for the vendor-id comparison: a partition reporting
vendor id 091E in udev's zero-padded form. -/
def partReportsPadded : UdevPartition :=
  { device_node := "/dev/sdb1", id_vendor_id := some "091e", id_fs_label := none }

/-- Second enumerated partition, a non-Garmin hub, with a label. -/
def partOtherVendor : UdevPartition :=
  { device_node := "/dev/sdc1", id_vendor_id := some "1d6b", id_fs_label := some "DATA" }

/-- A partition reporting the unpadded string the code actually compares
against. -/
def partReportsUnpadded : UdevPartition :=
  { device_node := "/dev/sdb1", id_vendor_id := some "91e", id_fs_label := none }

/-! ## Mounting (GarminDeviceManager.mount_device) -/

/-- External calls `mount_device` can make, in the order it makes them. -/
inductive OsCall where
  | makedirs (path : String) (exist_ok : Bool)
  | mountCall (device_path : String) (mount_point : String)
deriving DecidableEq

/-- Embeds `GarminDeviceManager.mount_device` with its call trace.  Inputs
`mkRes` and `mntRes` are the behaviours of `os.makedirs(mount_point,
exist_ok=True)` and `mount.mount(device_path, mount_point)` on this
invocation.  The `try` block runs them in that order; any exception is
caught and the method returns `False` (printing the message); it returns
`True` only when both calls complete. -/
def mount_device_run (mkRes mntRes : Except PyExc Unit)
    (device_path mount_point : String) : List OsCall × Bool :=
  match mkRes with
  | .error _ => ([.makedirs mount_point true], false)
  | .ok _ =>
    match mntRes with
    | .error _ => ([.makedirs mount_point true, .mountCall device_path mount_point], false)
    | .ok _ => ([.makedirs mount_point true, .mountCall device_path mount_point], true)

/-- Result of `mount_device` as seen by its caller: just the boolean. -/
def mount_device (mkRes mntRes : Except PyExc Unit)
    (device_path mount_point : String) : Bool :=
  (mount_device_run mkRes mntRes device_path mount_point).2

/-- One user-initiated connect for a USB device, as the application performs
it (`GarminConnectionApp.mount_usb_device` calls `mount_device` exactly
once; no retry loop exists anywhere in the program).  `transport` gives the
outcome of the mount call on each attempt index; the first component is the
overall result, the second counts transport invocations made. -/
def mount_connect_session (transport : Nat → Except PyExc Unit)
    (device_path mount_point : String) : Bool × Nat :=
  (mount_device (.ok ()) (transport 0) device_path mount_point, 1)

/-- Transport behaviour that fails with a busy error on attempts 0 and 1 and
succeeds from attempt 2 on. -/
def busyBusyOk : Nat → Except PyExc Unit :=
  fun i => if i < 2 then .error .busy else .ok ()

/-- Transport behaviour that always fails with a permission error. -/
def alwaysPermissionDenied : Nat → Except PyExc Unit :=
  fun _ => .error .permissionError

/-! ## File extraction (GarminDeviceManager.extract_fit_files) -/

/-- A mounted directory tree: the files of the current directory and its
named subdirectories. -/
inductive FsTree where
  | mk (files : List String) (subdirs : List (String × FsTree))

mutual

/-- Embeds `os.walk(mount_point)` (top-down): yields each visited
directory's path paired with each of its file names, current directory
first, then the subdirectories in order. -/
def walkFiles (root : String) : FsTree → List (String × String)
  | .mk files subs => files.map (fun f => (root, f)) ++ walkSubs root subs

/-- Walk of a list of subdirectories, each under `root`. -/
def walkSubs (root : String) : List (String × FsTree) → List (String × String)
  | [] => []
  | (d, t) :: rest => walkFiles (root ++ "/" ++ d) t ++ walkSubs root rest

end

/-- Python's `s.lower()` (per-character lowercasing). -/
def pyLower (s : String) : String := String.mk (s.data.map Char.toLower)

/-- The filter `f.lower().endswith('.fit')` applied to a file name. -/
def isFitFile (f : String) : Bool := ".fit".data.isSuffixOf (pyLower f).data

/-- Embeds `GarminDeviceManager.extract_fit_files`: walk the mounted tree
and collect `os.path.join(root, f)` for every file whose lowercased name
ends in ".fit". -/
def extract_fit_files (mount_point : String) (tree : FsTree) : List String :=
  (walkFiles mount_point tree).filterMap (fun rf =>
    if isFitFile rf.2 then some (rf.1 ++ "/" ++ rf.2) else none)

/-- Embeds `GarminConnectionApp.mount_usb_device` up to its observable
outcome: mount the selected device at GARMIN_MOUNTPOINT; only if the mount
reports success is extraction performed, and the manifest (possibly empty)
is what the user is then shown; on mount failure extraction never runs
(`none`). -/
def mount_usb_device (mkRes mntRes : Except PyExc Unit) (device_path : String)
    (tree : FsTree) : Option (List String) :=
  if mount_device mkRes mntRes device_path GARMIN_MOUNTPOINT then
    some (extract_fit_files GARMIN_MOUNTPOINT tree)
  else none

/-- The spec's example tree: files a.FIT, b.fit, c.txt at the top level. -/
def exampleFitTree : FsTree := .mk ["a.FIT", "b.fit", "c.txt"] []

/-- A tree with no activity files at all. -/
def noFitTree : FsTree := .mk ["c.txt"] [("GARMIN", .mk ["readme.md"] [])]

/-! ## Bluetooth (BluetoothPairingManager) -/

/-- The `org.bluez.Device1` properties the code reads (absent keys `none`;
`device.get` supplies the `''` defaults). -/
structure DeviceProps where
  name : Option String
  address : Option String
deriving DecidableEq

/-- One object returned by `GetManagedObjects`: its path, whether its
interface dict contains `org.bluez.Adapter1`, and its `org.bluez.Device1`
properties when that interface is present. -/
structure BusObject where
  path : String
  hasAdapter1 : Bool
  device1 : Option DeviceProps
deriving DecidableEq

/-- Embeds `BluetoothPairingManager._get_bluetooth_adapter`: return the
path of the first managed object exposing `org.bluez.Adapter1`; if none
exists, `raise Exception("No Bluetooth adapter found")` — the error channel
is the raw exception message, not a taxonomy code. -/
def get_bluetooth_adapter (objects : List BusObject) : Except String String :=
  match objects.find? (fun o => o.hasAdapter1) with
  | some o => .ok o.path
  | none => .error "No Bluetooth adapter found"

/-- State of a constructed `BluetoothPairingManager`: the adapter path
resolved by `_get_bluetooth_adapter` at construction time. -/
structure BluetoothPairingManager where
  adapter_path : String

/-- External calls `discover_garmin_devices` makes, in order. -/
inductive BusEvent where
  | startDiscovery
  | wait (seconds : Nat)
  | stopDiscovery
  | getManagedObjects
deriving DecidableEq

/-- Device dict built by `discover_garmin_devices` for a matching device. -/
structure BTDevice where
  address : String
  name : String
deriving DecidableEq

/-- Substring containment, Python's `needle in hay`. -/
def containsSub : List Char → List Char → Bool
  | [], needle => needle.isEmpty
  | c :: t, needle => needle.isPrefixOf (c :: t) || containsSub t needle

/-- The filter loop of `discover_garmin_devices`: keep every managed object
exposing `org.bluez.Device1` whose `Name` (default `''`) contains "Garmin",
building the address/name dict (defaults `''`). -/
def garminFilter (objects : List BusObject) : List BTDevice :=
  objects.filterMap (fun o =>
    match o.device1 with
    | none => none
    | some props =>
      if containsSub (props.name.getD "").data "Garmin".data then
        some { address := props.address.getD "", name := props.name.getD "" }
      else none)

/-- Behaviour of the D-Bus collaborators during one discovery:
the results of `StartDiscovery`, `StopDiscovery` and `GetManagedObjects`. -/
structure BusBehavior where
  startRes : Except PyExc Unit
  stopRes : Except PyExc Unit
  objectsRes : Except PyExc (List BusObject)

/-- Embeds `BluetoothPairingManager.discover_garmin_devices` with its call
trace.  Inside one `try`: `StartDiscovery()`, `time.sleep(duration)`,
`StopDiscovery()`, `GetManagedObjects()`, then the Garmin name filter; any
exception anywhere is caught and the method returns the empty list. -/
def discover_garmin_devices (duration : Nat) (b : BusBehavior) :
    List BusEvent × List BTDevice :=
  match b.startRes with
  | .error _ => ([.startDiscovery], [])
  | .ok _ =>
    match b.stopRes with
    | .error _ => ([.startDiscovery, .wait duration, .stopDiscovery], [])
    | .ok _ =>
      match b.objectsRes with
      | .error _ =>
        ([.startDiscovery, .wait duration, .stopDiscovery, .getManagedObjects], [])
      | .ok objs =>
        ([.startDiscovery, .wait duration, .stopDiscovery, .getManagedObjects],
         garminFilter objs)

/-- A successful discovery window in which no devices at all are visible. -/
def emptySuccessBus : BusBehavior :=
  { startRes := .ok (), stopRes := .ok (), objectsRes := .ok [] }

/-- Python's `addr.replace(':', '_')`: every colon becomes an underscore. -/
def pyReplaceColon (addr : String) : String :=
  String.mk (addr.data.map (fun c => if c = ':' then '_' else c))

/-- Embeds the device-path construction in
`BluetoothPairingManager.pair_device`: the f-string
`"/org/bluez/hci0/dev_" + device_address.replace(':', '_')`.  The manager's
resolved `adapter_path` is in scope (`self`) but does not occur in the
f-string. -/
def pair_device_path (m : BluetoothPairingManager) (device_address : String) : String :=
  "/org/bluez/hci0/dev_" ++ pyReplaceColon device_address

/-- Embeds `BluetoothPairingManager.pair_device`: issue `Pair()` on the
object at the constructed path; `True` if it completes, `False` if any
exception is raised (caught by the method's `try`). -/
def pair_device (m : BluetoothPairingManager)
    (pairCall : String → Except PyExc Unit) (device_address : String) : Bool :=
  match pairCall (pair_device_path m device_address) with
  | .ok _ => true
  | .error _ => false

/-- Example bus population: the default adapter, a Garmin device and a
non-Garmin device. -/
def exampleObjects : List BusObject :=
  [ { path := "/org/bluez/hci0", hasAdapter1 := true, device1 := none },
    { path := "/org/bluez/hci0/dev_AA_BB_CC_DD_EE_FF", hasAdapter1 := false,
      device1 := some { name := some "Garmin Edge 530",
                        address := some "AA:BB:CC:DD:EE:FF" } },
    { path := "/org/bluez/hci0/dev_11_22_33_44_55_66", hasAdapter1 := false,
      device1 := some { name := some "JBL Speaker",
                        address := some "11:22:33:44:55:66" } } ]

/-- A discovery window over `exampleObjects` in which every bus call
succeeds. -/
def exampleBus : BusBehavior :=
  { startRes := .ok (), stopRes := .ok (), objectsRes := .ok exampleObjects }

/-! ## Claims -/

/-- Claim C1 (code_bug evidence): the vendor-id comparison in
`detect_usb_devices` is against `hex(0x091E)[2:] = "91e"`, which drops the
leading zero of Garmin's registered vendor id.  A pass enumerating two
partitions of which exactly one reports vendor id 091E in udev's standard
zero-padded rendering "091e" yields no descriptor at all instead of the one
the claim requires; only the nonstandard unpadded string "91e" is matched
(and then the label does default to "Garmin Device"). -/
theorem detect_usb_vendor_id_bug :
    garminVendorIdStr = "91e" ∧
    reportsGarminVendorId partReportsPadded = true ∧
    reportsGarminVendorId partOtherVendor = false ∧
    detect_usb_devices [partReportsPadded, partOtherVendor] = [] ∧
    detect_usb_devices [partReportsUnpadded, partOtherVendor] =
      [{ device_path := "/dev/sdb1", mount_path := "/mnt/garmin",
         label := "Garmin Device" }] := by
  decide

/-- Claim C2 (counterexample): transport failures are not surfaced as
classified reason codes.  A permission failure and a busy failure of the
mount call — distinct classes of the spec's taxonomy — surface to the
caller as the same undifferentiated `false`, and absence of a Bluetooth
adapter surfaces as the raw exception message, not as a `NoAdapter` code. -/
theorem error_taxonomy_counterexample :
    reasonClass .permissionError ≠ reasonClass .busy ∧
    mount_device (.ok ()) (.error .permissionError) "/dev/sdb1" "/mnt/garmin" =
      mount_device (.ok ()) (.error .busy) "/dev/sdb1" "/mnt/garmin" ∧
    get_bluetooth_adapter [] = .error "No Bluetooth adapter found" :=
  ⟨by decide, by decide, rfl⟩

/-- Claim C2 (amended): every failure inside a transport operation is
surfaced without classification — any mount-path exception yields `false`,
any pairing exception yields `false`, and an adapterless bus makes adapter
resolution surface the raw exception "No Bluetooth adapter found". -/
theorem error_surface_amended :
    (∀ (mkRes mntRes : Except PyExc Unit) (dp mp : String) (e : PyExc),
      (mkRes = .error e ∨ mntRes = .error e) →
        mount_device mkRes mntRes dp mp = false) ∧
    (∀ objects : List BusObject, objects.find? (fun o => o.hasAdapter1) = none →
        get_bluetooth_adapter objects = .error "No Bluetooth adapter found") ∧
    (∀ (m : BluetoothPairingManager) (pairCall : String → Except PyExc Unit)
        (addr : String) (e : PyExc),
      pairCall (pair_device_path m addr) = .error e →
        pair_device m pairCall addr = false) := by
  refine ⟨?_, ?_, ?_⟩
  · intro mkRes mntRes dp mp e h
    cases mkRes <;> cases mntRes <;> simp_all [mount_device, mount_device_run]
  · intro objects h
    simp [get_bluetooth_adapter, h]
  · intro m pairCall addr e h
    simp [pair_device, h]

/-- Claim C2 witness: the amended statement at a concrete failing mount. -/
theorem error_surface_amended_example :
    mount_device (.ok ()) (.error (.other "mount: unknown filesystem"))
      "/dev/sdb1" "/mnt/garmin" = false :=
  error_surface_amended.1 (.ok ()) (.error (.other "mount: unknown filesystem"))
    "/dev/sdb1" "/mnt/garmin" (.other "mount: unknown filesystem") (Or.inr rfl)

/-- Claim C3: `extract_fit_files` returns exactly the walked entries whose
file name, lowercased, ends in ".fit" (joined to their directory), and on
the spec's example tree with a.FIT, b.fit, c.txt it returns exactly the
entries for a.FIT and b.fit and never c.txt. -/
theorem extract_fit_files_spec :
    (∀ (mp : String) (t : FsTree) (x : String),
      x ∈ extract_fit_files mp t ↔
        ∃ rf, rf ∈ walkFiles mp t ∧ isFitFile rf.2 = true ∧ x = rf.1 ++ "/" ++ rf.2) ∧
    extract_fit_files "/mnt/garmin" exampleFitTree =
      ["/mnt/garmin/a.FIT", "/mnt/garmin/b.fit"] := by
  refine ⟨?_, by decide⟩
  intro mp t x
  simp only [extract_fit_files, List.mem_filterMap]
  constructor
  · rintro ⟨rf, hrf, hsome⟩
    by_cases h : isFitFile rf.2
    · refine ⟨rf, hrf, h, ?_⟩
      simp only [h, if_true] at hsome
      exact (Option.some_inj.mp hsome).symm
    · simp only [h, if_false] at hsome
      cases hsome
  · rintro ⟨rf, hrf, hfit, rfl⟩
    exact ⟨rf, hrf, by simp [hfit]⟩

/-- Claim C3 witness: the membership characterization instantiated on the
example tree for the uppercase entry a.FIT. -/
theorem extract_fit_files_spec_example :
    "/mnt/garmin/a.FIT" ∈ extract_fit_files "/mnt/garmin" exampleFitTree :=
  (extract_fit_files_spec.1 "/mnt/garmin" exampleFitTree "/mnt/garmin/a.FIT").mpr
    ⟨("/mnt/garmin", "a.FIT"), by decide, by decide, rfl⟩

/-- Claim C4 (counterexample): with a transport that is busy on the first
two attempts and fine from the third, a connect does not retry to success
with attempts = 3; the program makes exactly one attempt and reports
failure, so the session outcome is (false, 1). -/
theorem retry_policy_counterexample :
    busyBusyOk 0 = .error .busy ∧ busyBusyOk 1 = .error .busy ∧
    busyBusyOk 2 = .ok () ∧
    mount_connect_session busyBusyOk "/dev/sdb1" "/mnt/garmin" = (false, 1) ∧
    mount_connect_session busyBusyOk "/dev/sdb1" "/mnt/garmin" ≠ (true, 3) := by
  decide

/-- Claim C4 (amended): every connect makes exactly one transport attempt
(attempts = 1) and succeeds exactly when that first attempt succeeds; in
particular a PermissionDenied transport fails immediately with attempts = 1
(the half of the original claim that does hold). -/
theorem single_attempt_amended :
    ∀ (transport : Nat → Except PyExc Unit) (dp mp : String),
      (mount_connect_session transport dp mp).2 = 1 ∧
      ((mount_connect_session transport dp mp).1 = true ↔ transport 0 = .ok ()) ∧
      mount_connect_session alwaysPermissionDenied dp mp = (false, 1) := by
  intro transport dp mp
  refine ⟨rfl, ?_, by simp [mount_connect_session, alwaysPermissionDenied,
    mount_device, mount_device_run]⟩
  rcases h : transport 0 with e | u
  · simp [mount_connect_session, mount_device, mount_device_run, h]
  · simp [mount_connect_session, mount_device, mount_device_run, h]

/-- Claim C4 witness: the amended statement at the busy-busy-ok transport. -/
theorem single_attempt_amended_example :
    (mount_connect_session busyBusyOk "/dev/sdb1" "/mnt/garmin").1 = false := by
  have h := (single_attempt_amended busyBusyOk "/dev/sdb1" "/mnt/garmin").2.1
  rw [show busyBusyOk 0 = Except.error PyExc.busy from rfl] at h
  simpa using h

/-- Claim C5: when the three bus calls succeed, `discover_garmin_devices`
performs StartDiscovery, the wait of the configured duration, StopDiscovery
and GetManagedObjects in exactly that order, and returns exactly the
devices among the enumerated objects that expose the device interface and
whose advertised name contains "Garmin". -/
theorem discover_sequence_spec :
    ∀ (duration : Nat) (b : BusBehavior) (objs : List BusObject),
      b.startRes = .ok () → b.stopRes = .ok () → b.objectsRes = .ok objs →
      (discover_garmin_devices duration b).1 =
        [.startDiscovery, .wait duration, .stopDiscovery, .getManagedObjects] ∧
      ∀ dev, dev ∈ (discover_garmin_devices duration b).2 ↔
        ∃ o, o ∈ objs ∧ ∃ props, o.device1 = some props ∧
          containsSub (props.name.getD "").data "Garmin".data = true ∧
          dev = { address := props.address.getD "", name := props.name.getD "" } := by
  intro duration b objs h1 h2 h3
  obtain ⟨s, st, ob⟩ := b
  simp only at h1 h2 h3
  subst h1; subst h2; subst h3
  refine ⟨rfl, ?_⟩
  intro dev
  simp only [discover_garmin_devices, garminFilter, List.mem_filterMap]
  constructor
  · rintro ⟨o, ho, hsome⟩
    rcases hp : o.device1 with _ | props
    · rw [hp] at hsome; cases hsome
    · rw [hp] at hsome
      by_cases hc : containsSub (props.name.getD "").data "Garmin".data
      · refine ⟨o, ho, props, hp, hc, ?_⟩
        simp only [hc, if_true] at hsome
        exact (Option.some_inj.mp hsome).symm
      · simp only [hc, if_false] at hsome
        cases hsome
  · rintro ⟨o, ho, props, hp, hc, rfl⟩
    exact ⟨o, ho, by simp [hp, hc]⟩

/-- Claim C5 witness: on the example bus the trace is the four ordered
events and the Garmin Edge device is returned. -/
theorem discover_sequence_spec_example :
    (discover_garmin_devices 10 exampleBus).1 =
      [.startDiscovery, .wait 10, .stopDiscovery, .getManagedObjects] ∧
    ({ address := "AA:BB:CC:DD:EE:FF", name := "Garmin Edge 530" } : BTDevice) ∈
      (discover_garmin_devices 10 exampleBus).2 :=
  ⟨(discover_sequence_spec 10 exampleBus exampleObjects rfl rfl rfl).1,
   ((discover_sequence_spec 10 exampleBus exampleObjects rfl rfl rfl).2 _).mpr
     ⟨{ path := "/org/bluez/hci0/dev_AA_BB_CC_DD_EE_FF", hasAdapter1 := false,
        device1 := some { name := some "Garmin Edge 530",
                          address := some "AA:BB:CC:DD:EE:FF" } },
      by decide, { name := some "Garmin Edge 530", address := some "AA:BB:CC:DD:EE:FF" },
      rfl, by decide, rfl⟩⟩

/-- Claim C6 (counterexample): mount failure is not classified into
distinguishable classes — a permission error, a busy/already-mounted error
and an unknown error all surface as the same undifferentiated `false`
although their taxonomy classes differ pairwise. -/
theorem mount_classification_counterexample :
    mount_device (.ok ()) (.error .permissionError) "/dev/sdc1" "/mnt/garmin" =
      mount_device (.ok ()) (.error .busy) "/dev/sdc1" "/mnt/garmin" ∧
    mount_device (.ok ()) (.error .busy) "/dev/sdc1" "/mnt/garmin" =
      mount_device (.ok ()) (.error (.other "disk error")) "/dev/sdc1" "/mnt/garmin" ∧
    reasonClass .permissionError ≠ reasonClass .busy ∧
    reasonClass .busy ≠ reasonClass (.other "disk error") := by
  decide

/-- Claim C6 (amended): `mount_device` first issues the directory creation
(with exist_ok set, creating the mount point only if absent) and then, when
creation succeeded, the mount call — in that order — but on failure returns
an undifferentiated `false` independent of the underlying error's class. -/
theorem mount_order_amended :
    ∀ (mkRes mntRes : Except PyExc Unit) (dp mp : String),
      (mount_device_run mkRes mntRes dp mp).1.head? = some (.makedirs mp true) ∧
      (mkRes = .ok () →
        (mount_device_run mkRes mntRes dp mp).1 =
          [.makedirs mp true, .mountCall dp mp]) ∧
      (∀ e e' : PyExc,
        mount_device mkRes (.error e) dp mp = mount_device mkRes (.error e') dp mp) := by
  intro mkRes mntRes dp mp
  cases mkRes <;> cases mntRes <;>
    simp [mount_device, mount_device_run]

/-- Claim C6 witness: the makedirs-before-mount trace on a successful run. -/
theorem mount_order_amended_example :
    (mount_device_run (.ok ()) (.ok ()) "/dev/sdb1" "/mnt/garmin").1 =
      [.makedirs "/mnt/garmin" true, .mountCall "/dev/sdb1" "/mnt/garmin"] :=
  (mount_order_amended (.ok ()) (.ok ()) "/dev/sdb1" "/mnt/garmin").2.1 rfl

/-- Claim C7: over a mounted tree with no activity files the extraction
step of `mount_usb_device` yields the successful empty manifest `some []`,
which is distinct from the `none` of a failed mount, after which extraction
is not performed at all. -/
theorem extract_empty_is_success :
    ∀ (t : FsTree) (dp : String) (e : PyExc),
      (∀ rf ∈ walkFiles GARMIN_MOUNTPOINT t, isFitFile rf.2 = false) →
      mount_usb_device (.ok ()) (.ok ()) dp t = some [] ∧
      mount_usb_device (.ok ()) (.error e) dp t = none ∧
      mount_usb_device (.ok ()) (.ok ()) dp t ≠ mount_usb_device (.ok ()) (.error e) dp t := by
  intro t dp e h
  have hempty : extract_fit_files GARMIN_MOUNTPOINT t = [] := by
    rw [extract_fit_files, List.filterMap_eq_nil_iff]
    intro rf hrf
    simp [h rf hrf]
  refine ⟨?_, ?_, ?_⟩
  · simp [mount_usb_device, mount_device, mount_device_run, hempty]
  · simp [mount_usb_device, mount_device, mount_device_run]
  · simp [mount_usb_device, mount_device, mount_device_run]

/-- Claim C7 witness: the empty-manifest success on a concrete tree that
contains only non-activity files. -/
theorem extract_empty_is_success_example :
    mount_usb_device (.ok ()) (.ok ()) "/dev/sdb1" noFitTree = some [] :=
  (extract_empty_is_success noFitTree "/dev/sdb1" .busy (by decide)).1

/-- Claim C8: `pair_device` builds the device bus path under the fixed
"hci0" adapter segment for every address, independently of the adapter path
the manager resolved at construction time, which never enters the path. -/
theorem pair_path_fixed_hci0 :
    ∀ (m1 m2 : BluetoothPairingManager) (addr : String),
      pair_device_path m1 addr = pair_device_path m2 addr ∧
      "/org/bluez/hci0/dev_".data.isPrefixOf (pair_device_path m1 addr).data = true ∧
      pair_device_path m1 addr = "/org/bluez/hci0/dev_" ++ pyReplaceColon addr := by
  intro m1 m2 addr
  refine ⟨rfl, ?_, rfl⟩
  rw [ List.isPrefixOf_iff_prefix, pair_device_path, String.data_append]
  exact List.prefix_append _ _

/-- Claim C8 witness: the fixed-path property at a concrete manager whose
resolved adapter path is not hci0. -/
theorem pair_path_fixed_hci0_example :
    pair_device_path { adapter_path := "/org/bluez/hci1" } "AA:BB:CC:DD:EE:FF" =
      pair_device_path { adapter_path := "/org/bluez/hci0" } "AA:BB:CC:DD:EE:FF" :=
  (pair_path_fixed_hci0 { adapter_path := "/org/bluez/hci1" }
    { adapter_path := "/org/bluez/hci0" } "AA:BB:CC:DD:EE:FF").1

/-- Claim C10: whenever any of the bus calls of a discovery fails,
`discover_garmin_devices` returns the empty list — the same value a fully
successful discovery over an empty bus returns, so the two outcomes are
indistinguishable to the caller. -/
theorem discovery_error_indistinguishable :
    ∀ (duration : Nat) (b : BusBehavior) (e : PyExc),
      (b.startRes = .error e ∨ b.stopRes = .error e ∨ b.objectsRes = .error e) →
      (discover_garmin_devices duration b).2 = [] ∧
      (discover_garmin_devices duration b).2 =
        (discover_garmin_devices duration emptySuccessBus).2 := by
  intro duration b e h
  obtain ⟨s, st, ob⟩ := b
  have hempty : (discover_garmin_devices duration ⟨s, st, ob⟩).2 = [] := by
    cases s <;> cases st <;> cases ob <;>
      simp_all [discover_garmin_devices, garminFilter]
  exact ⟨hempty, by rw [hempty]; rfl⟩

/-- Claim C10 witness: a StartDiscovery failure over the populated example
bus is indistinguishable from the successful empty discovery. -/
theorem discovery_error_indistinguishable_example :
    (discover_garmin_devices 10
      { startRes := .error .busy, stopRes := .ok (), objectsRes := .ok exampleObjects }).2 =
      (discover_garmin_devices 10 emptySuccessBus).2 :=
  (discovery_error_indistinguishable 10
    { startRes := .error .busy, stopRes := .ok (), objectsRes := .ok exampleObjects }
    .busy (Or.inl rfl)).2

/-- Claim C9: `mount_device` is total over its exception-raising
collaborators — it returns `true` exactly when both the directory creation
and the mount call complete without raising, and `false` whenever either
raises, never propagating the exception (its result is the boolean of the
caught `try` block for every collaborator behaviour). -/
theorem mount_device_total :
    ∀ (mkRes mntRes : Except PyExc Unit) (dp mp : String),
      (mount_device mkRes mntRes dp mp = true ↔ mkRes = .ok () ∧ mntRes = .ok ()) ∧
      (∀ e, mkRes = .error e ∨ mntRes = .error e →
        mount_device mkRes mntRes dp mp = false) := by
  intro mkRes mntRes dp mp
  cases mkRes <;> cases mntRes <;>
    simp [mount_device, mount_device_run]

/-- Claim C9 witness: a raising mount call yields `false` at a concrete
input. -/
theorem mount_device_total_example :
    mount_device (.ok ()) (.error .busy) "/dev/sdb1" "/mnt/garmin" = false :=
  (mount_device_total (.ok ()) (.error .busy) "/dev/sdb1" "/mnt/garmin").2 .busy (Or.inr rfl)
